import Mathlib

/-!
Shallow embedding of the drivent backend's hotel and activity services.

The embedding models the entity store as an explicit `Store` value. Each
repository query from §6 of the spec becomes a pure function of the store;
each service operation threads the store through explicitly (the hotel and
activity services never mutate it except `registerInActivity`) and also
returns the list of store accesses it performed, in order, so that frame
and short-circuit properties are statable.

Source files embedded:
- src/src/services/activities-service/index.ts  (listActivities, getActivities, createUserActivity)
- src/unnamed/part_000                          (listHotels, getHotels, getHotelsWithRooms, getAllHotelsWithRooms)
- src/src/repositories/hotel-repository/index.ts (findHotels, findRoomsByHotelId, findAllHotelsWithRooms)
The enrollment, ticket, booking and activities repositories are not in the
source tree; they are modelled from §6 of the spec where noted.
-/

/-- Ticket status: the spec's `status ∈ {RESERVED, PAID}`. -/
inductive TicketStatus where
  | RESERVED
  | PAID
deriving DecidableEq, Repr

/-- TicketType catalog entry: `id, isRemote, includesHotel, price` (spec §3). -/
structure TicketType where
  id : Nat
  isRemote : Bool
  includesHotel : Bool
  price : Nat
deriving DecidableEq, Repr

/-- Ticket with its embedded ticket type, as returned by
`findTicketByEnrollmentId` and consumed as `ticket.TicketType.isRemote`
in both services. -/
structure Ticket where
  id : Nat
  enrollmentId : Nat
  status : TicketStatus
  TicketType : TicketType
deriving DecidableEq, Repr

/-- Enrollment record: `id, userId, address` (address is never consulted by
the embedded code, so it is omitted). -/
structure Enrollment where
  id : Nat
  userId : Nat
deriving DecidableEq, Repr

/-- Booking record linking a user to a room (spec §3). -/
structure Booking where
  id : Nat
  userId : Nat
  roomId : Nat
deriving DecidableEq, Repr

/-- Hotel record (spec §3: id, name). -/
structure Hotel where
  id : Nat
  name : String
deriving DecidableEq, Repr

/-- Room record belonging to one hotel (spec §3). -/
structure Room where
  id : Nat
  hotelId : Nat
deriving DecidableEq, Repr

/-- Activity catalog row: `id, day, startsAt, endsAt, placeId` (spec §3). -/
structure Activity where
  id : Nat
  day : String
  startsAt : Nat
  endsAt : Nat
  placeId : Nat
deriving DecidableEq, Repr

/-- ActivityRegistration (called `userActivity` in the source):
`id, userId, activityId, createdAt, updatedAt`. -/
structure UserActivity where
  id : Nat
  userId : Nat
  activityId : Nat
  createdAt : Nat
  updatedAt : Nat
deriving DecidableEq, Repr

/-- The entity store: one list per entity table, plus the server-assigned
id counter and clock used when inserting a registration. -/
structure Store where
  enrollments : List Enrollment
  tickets : List Ticket
  bookings : List Booking
  hotels : List Hotel
  rooms : List Room
  activities : List Activity
  userActivities : List UserActivity
  nextId : Nat
  now : Nat
deriving DecidableEq, Repr

/-- Error kinds of §7 of the spec: `notFoundError`, `cannotListHotelsError`,
`cannotListActivities`, and the store-level uniqueness (Conflict) and
foreign-key (BadRequest) signals. -/
inductive ServiceError where
  | notFound
  | cannotListHotels
  | cannotListActivities
  | conflict
  | badRequest
deriving DecidableEq, Repr

/-- One store access, tagged by which repository query was issued; service
operations report their accesses in order. -/
inductive StoreAccess where
  | findEnrollment (userId : Nat)
  | findTicket (enrollmentId : Nat)
  | findBooking (userId : Nat)
  | findHotels
  | findRoomsByHotelId (hotelId : Nat)
  | findAllHotelsWithRooms
  | findAllActivities
  | findUserActivities (userId : Nat)
  | insertRegistration (userId : Nat) (activityId : Nat)
deriving DecidableEq, Repr

namespace enrollmentRepository

/-- Modelled from the spec: the enrollment repository is not in the source
tree; §6 gives `findEnrollmentWithAddressByUser(userId) -> Enrollment | absent`
and §3 records at most one enrollment per user, so the lookup is a first
match on `userId`. -/
def findWithAddressByUserId (s : Store) (userId : Nat) : Option Enrollment :=
  s.enrollments.find? (fun e => e.userId == userId)

end enrollmentRepository

namespace ticketRepository

/-- Modelled from the spec: the ticket repository is not in the source tree;
§6 gives `findTicketByEnrollment(enrollmentId) -> Ticket(with embedded
TicketType) | absent`, a first match on `enrollmentId`. -/
def findTicketByEnrollmentId (s : Store) (enrollmentId : Nat) : Option Ticket :=
  s.tickets.find? (fun t => t.enrollmentId == enrollmentId)

end ticketRepository

namespace bookingRepository

/-- Modelled from the spec: the booking repository is not in the source tree;
§6 gives `findBookingByUser(userId) -> Booking | absent`. -/
def findByUserId (s : Store) (userId : Nat) : Option Booking :=
  s.bookings.find? (fun b => b.userId == userId)

end bookingRepository

namespace hotelRepository

/-- `findHotels`: `prisma.hotel.findMany()`. -/
def findHotels (s : Store) : List Hotel :=
  s.hotels

/-- A hotel together with its rooms, as produced by the
`include: Rooms` query. -/
structure HotelWithRooms where
  id : Nat
  name : String
  Rooms : List Room
deriving DecidableEq, Repr

/-- `findRoomsByHotelId(hotelId)`: `prisma.hotel.findFirst` on `id = hotelId`
including the hotel's rooms. -/
def findRoomsByHotelId (s : Store) (hotelId : Nat) : Option HotelWithRooms :=
  match s.hotels.find? (fun h => h.id == hotelId) with
  | none => none
  | some h => some { id := h.id, name := h.name,
                     Rooms := s.rooms.filter (fun r => r.hotelId == h.id) }

/-- A room together with its bookings, from `Rooms: { include: Booking }`. -/
structure RoomWithBookings where
  id : Nat
  hotelId : Nat
  Booking : List Booking
deriving DecidableEq, Repr

/-- A hotel with its rooms, each room carrying its bookings. -/
structure HotelWithRoomsAndBookings where
  id : Nat
  name : String
  Rooms : List RoomWithBookings
deriving DecidableEq, Repr

/-- `findAllHotelsWithRooms`: `prisma.hotel.findMany` including rooms and
each room's bookings. -/
def findAllHotelsWithRooms (s : Store) : List HotelWithRoomsAndBookings :=
  s.hotels.map (fun h =>
    { id := h.id, name := h.name,
      Rooms := (s.rooms.filter (fun r => r.hotelId == h.id)).map (fun r =>
        { id := r.id, hotelId := r.hotelId,
          Booking := s.bookings.filter (fun b => b.roomId == r.id) }) })

end hotelRepository

namespace activityRepository

/-- Modelled from the spec: the activities repository is not in the source
tree; §6 gives `findAllActivities() -> sequence<Activity>`. -/
def findAllActivities (s : Store) : List Activity :=
  s.activities

/-- Modelled from the spec: `findUserActivityRegistrations(userId) ->
sequence<ActivityRegistration>`, the registrations belonging to `userId`. -/
def findUserActivities (s : Store) (userId : Nat) : List UserActivity :=
  s.userActivities.filter (fun ua => ua.userId == userId)

/-- Modelled from the spec: `insertActivityRegistration(userId, activityId)`
is not in the source tree. Per §4.3 it fails with BadRequest when
`activityId` references no existing activity (foreign-key check, stated
universally by testable property 7), fails with Conflict when a
registration for this `userId` already exists (uniqueness constraint
scoped to `userId` alone), and otherwise persists a row with
server-assigned id and timestamps. -/
def registerInActivity (s : Store) (userId : Nat) (activityId : Nat) :
    Except ServiceError UserActivity × Store :=
  if s.activities.all (fun a => !(a.id == activityId)) then
    (Except.error ServiceError.badRequest, s)
  else if s.userActivities.any (fun ua => ua.userId == userId) then
    (Except.error ServiceError.conflict, s)
  else
    let reg : UserActivity :=
      { id := s.nextId, userId := userId, activityId := activityId,
        createdAt := s.now, updatedAt := s.now }
    (Except.ok reg,
     { s with userActivities := s.userActivities ++ [reg], nextId := s.nextId + 1 })

end activityRepository

namespace hotelService

/-- The hotel eligibility guard `listHotels(userId)` of src/unnamed/part_000:
NotFound without an enrollment; `cannotListHotelsError` when the ticket is
absent, RESERVED, remote, or does not include hotel. Returns the list of
store accesses it performed. -/
def listHotels (s : Store) (userId : Nat) :
    Except ServiceError Unit × List StoreAccess :=
  match enrollmentRepository.findWithAddressByUserId s userId with
  | none => (Except.error ServiceError.notFound, [StoreAccess.findEnrollment userId])
  | some enrollment =>
    let tr := [StoreAccess.findEnrollment userId, StoreAccess.findTicket enrollment.id]
    match ticketRepository.findTicketByEnrollmentId s enrollment.id with
    | none => (Except.error ServiceError.cannotListHotels, tr)
    | some ticket =>
      if ticket.status == TicketStatus.RESERVED || ticket.TicketType.isRemote
          || !ticket.TicketType.includesHotel then
        (Except.error ServiceError.cannotListHotels, tr)
      else
        (Except.ok (), tr)

/-- `getHotels(userId)`: run the guard, then return all hotels. -/
def getHotels (s : Store) (userId : Nat) :
    Except ServiceError (List Hotel) × Store × List StoreAccess :=
  match listHotels s userId with
  | (Except.error e, tr) => (Except.error e, s, tr)
  | (Except.ok _, tr) =>
    (Except.ok (hotelRepository.findHotels s), s, tr ++ [StoreAccess.findHotels])

/-- `getHotelsWithRooms(userId, hotelId)`: run the guard, fetch one hotel by
id with its rooms, NotFound when no hotel matches. -/
def getHotelsWithRooms (s : Store) (userId : Nat) (hotelId : Nat) :
    Except ServiceError hotelRepository.HotelWithRooms × Store × List StoreAccess :=
  match listHotels s userId with
  | (Except.error e, tr) => (Except.error e, s, tr)
  | (Except.ok _, tr) =>
    match hotelRepository.findRoomsByHotelId s hotelId with
    | none => (Except.error ServiceError.notFound, s, tr ++ [StoreAccess.findRoomsByHotelId hotelId])
    | some hotel => (Except.ok hotel, s, tr ++ [StoreAccess.findRoomsByHotelId hotelId])

/-- `getAllHotelsWithRooms(userId)`: run the guard, then all hotels with
rooms and bookings. -/
def getAllHotelsWithRooms (s : Store) (userId : Nat) :
    Except ServiceError (List hotelRepository.HotelWithRoomsAndBookings) × Store × List StoreAccess :=
  match listHotels s userId with
  | (Except.error e, tr) => (Except.error e, s, tr)
  | (Except.ok _, tr) =>
    (Except.ok (hotelRepository.findAllHotelsWithRooms s), s,
     tr ++ [StoreAccess.findAllHotelsWithRooms])

end hotelService

namespace activityService

/-- The activity eligibility guard `listActivities(userId)` of
src/src/services/activities-service/index.ts: NotFound without an
enrollment; `cannotListActivities` when the ticket is absent, RESERVED or
remote (no `includesHotel` check); NotFound without a booking. -/
def listActivities (s : Store) (userId : Nat) :
    Except ServiceError Unit × List StoreAccess :=
  match enrollmentRepository.findWithAddressByUserId s userId with
  | none => (Except.error ServiceError.notFound, [StoreAccess.findEnrollment userId])
  | some enrollment =>
    let tr := [StoreAccess.findEnrollment userId, StoreAccess.findTicket enrollment.id]
    match ticketRepository.findTicketByEnrollmentId s enrollment.id with
    | none => (Except.error ServiceError.cannotListActivities, tr)
    | some ticket =>
      if ticket.status == TicketStatus.RESERVED || ticket.TicketType.isRemote then
        (Except.error ServiceError.cannotListActivities, tr)
      else
        let tr := tr ++ [StoreAccess.findBooking userId]
        match bookingRepository.findByUserId s userId with
        | none => (Except.error ServiceError.notFound, tr)
        | some _ => (Except.ok (), tr)

/-- An activity with the `userSubscribed` flag added, modelling the object
spread in `getActivities`; `activity` holds the spread catalog fields. -/
structure ActivityWithSub where
  activity : Activity
  userSubscribed : Bool
deriving DecidableEq, Repr

/-- The inner for-loop of `getActivities`: returns true as soon as a
registration with `activity.id === userActivity.activityId` is found. -/
def subscribedLoop (activity : Activity) : List UserActivity → Bool
  | [] => false
  | userActivity :: rest =>
    if activity.id == userActivity.activityId then true
    else subscribedLoop activity rest

/-- `getActivities(userId)`: run the guard, fetch the catalog and the user's
registrations, and annotate each activity with `userSubscribed`. -/
def getActivities (s : Store) (userId : Nat) :
    Except ServiceError (List ActivityWithSub) × Store × List StoreAccess :=
  match listActivities s userId with
  | (Except.error e, tr) => (Except.error e, s, tr)
  | (Except.ok _, tr) =>
    let activities := activityRepository.findAllActivities s
    let userActivities := activityRepository.findUserActivities s userId
    let activitiesWithUser := activities.map (fun activity =>
      { activity := activity,
        userSubscribed := subscribedLoop activity userActivities : ActivityWithSub })
    (Except.ok activitiesWithUser, s,
     tr ++ [StoreAccess.findAllActivities, StoreAccess.findUserActivities userId])

/-- `createUserActivity(userId, activityId)`: run the guard, then insert the
registration through the repository. -/
def createUserActivity (s : Store) (userId : Nat) (activityId : Nat) :
    Except ServiceError UserActivity × Store × List StoreAccess :=
  match listActivities s userId with
  | (Except.error e, tr) => (Except.error e, s, tr)
  | (Except.ok _, tr) =>
    match activityRepository.registerInActivity s userId activityId with
    | (res, s2) => (res, s2, tr ++ [StoreAccess.insertRegistration userId activityId])

end activityService

/-! ## Sample stores used by witnesses and counterexamples -/

/-- A store with one eligible user (userId 1): enrollment, PAID non-remote
hotel-inclusive ticket, booking, one hotel with a room, two activities, and
one existing registration of user 1 for activity 10. -/
def sampleStore : Store :=
  { enrollments := [{ id := 1, userId := 1 }],
    tickets := [{ id := 1, enrollmentId := 1, status := TicketStatus.PAID,
                  TicketType := { id := 1, isRemote := false, includesHotel := true, price := 600 } }],
    bookings := [{ id := 1, userId := 1, roomId := 1 }],
    hotels := [{ id := 1, name := "Driven Resort" }],
    rooms := [{ id := 1, hotelId := 1 }],
    activities := [{ id := 10, day := "Friday", startsAt := 9, endsAt := 10, placeId := 1 },
                   { id := 11, day := "Saturday", startsAt := 10, endsAt := 11, placeId := 1 }],
    userActivities := [{ id := 5, userId := 1, activityId := 10, createdAt := 3, updatedAt := 3 }],
    nextId := 6,
    now := 7 }

/-! ## Helper lemmas -/

/-- The inner loop of `getActivities` returns true exactly when some
registration in the list matches the activity's id. -/
theorem subscribedLoop_eq_true_iff (a : Activity) (l : List UserActivity) :
    activityService.subscribedLoop a l = true ↔ ∃ ua ∈ l, a.id = ua.activityId := by
  induction l with
  | nil => simp [activityService.subscribedLoop]
  | cons x xs ih =>
    by_cases h : a.id = x.activityId
    · simp [activityService.subscribedLoop, h]
    · simp [activityService.subscribedLoop, h, ih]

/-- C1. For every userId passing the activity eligibility guard,
`getActivities(userId)` returns a sequence of length equal to the activity
catalog, whose i-th element has `userSubscribed = true` exactly when some
registration of that user targets the i-th activity's id. -/
theorem C1_getActivities_subscription (s : Store) (uid : Nat)
    (hg : (activityService.listActivities s uid).1 = Except.ok ()) :
    ∃ r, (activityService.getActivities s uid).1 = Except.ok r ∧
      r.length = s.activities.length ∧
      ∀ i (hi : i < s.activities.length) (hr : i < r.length),
        ((r.get ⟨i, hr⟩).userSubscribed = true ↔
          ∃ ua ∈ s.userActivities, ua.userId = uid ∧
            ua.activityId = (s.activities.get ⟨i, hi⟩).id) := by
  rcases h : activityService.listActivities s uid with ⟨res, tr⟩
  rw [h] at hg
  simp only at hg
  subst hg
  refine ⟨s.activities.map (fun activity =>
    { activity := activity,
      userSubscribed := activityService.subscribedLoop activity
        (activityRepository.findUserActivities s uid) }), ?_, ?_, ?_⟩
  · simp [activityService.getActivities, h, activityRepository.findAllActivities]
  · simp
  · intro i hi hr
    simp only [List.get_eq_getElem, List.getElem_map]
    rw [subscribedLoop_eq_true_iff]
    constructor
    · rintro ⟨ua, hmem, hid⟩
      rw [activityRepository.findUserActivities, List.mem_filter] at hmem
      exact ⟨ua, hmem.1, by simpa using hmem.2, hid.symm⟩
    · rintro ⟨ua, hmem, huid, hid⟩
      refine ⟨ua, ?_, hid.symm⟩
      rw [activityRepository.findUserActivities, List.mem_filter]
      exact ⟨hmem, by simpa using huid⟩

/-- C1 witness: user 1 of `sampleStore` passes the activity guard and the
annotation property holds there. -/
theorem C1_getActivities_subscription_witness :
    ∃ r, (activityService.getActivities sampleStore 1).1 = Except.ok r ∧
      r.length = sampleStore.activities.length ∧
      ∀ i (hi : i < sampleStore.activities.length) (hr : i < r.length),
        ((r.get ⟨i, hr⟩).userSubscribed = true ↔
          ∃ ua ∈ sampleStore.userActivities, ua.userId = 1 ∧
            ua.activityId = (sampleStore.activities.get ⟨i, hi⟩).id) :=
  C1_getActivities_subscription sampleStore 1 (by rfl)

/-- C10. For every userId passing the activity guard, `getActivities`
preserves the catalog order and every field of each catalog activity,
only adding the `userSubscribed` boolean. -/
theorem C10_getActivities_order_and_fields (s : Store) (uid : Nat)
    (hg : (activityService.listActivities s uid).1 = Except.ok ()) :
    ∃ r, (activityService.getActivities s uid).1 = Except.ok r ∧
      r.length = s.activities.length ∧
      ∀ i (hi : i < s.activities.length) (hr : i < r.length),
        (r.get ⟨i, hr⟩).activity = s.activities.get ⟨i, hi⟩ := by
  rcases h : activityService.listActivities s uid with ⟨res, tr⟩
  rw [h] at hg
  simp only at hg
  subst hg
  refine ⟨s.activities.map (fun activity =>
    { activity := activity,
      userSubscribed := activityService.subscribedLoop activity
        (activityRepository.findUserActivities s uid) }), ?_, ?_, ?_⟩
  · simp [activityService.getActivities, h, activityRepository.findAllActivities]
  · simp
  · intro i hi hr
    simp [List.get_eq_getElem, List.getElem_map]

/-- C10 witness: the order/field preservation at `sampleStore`, user 1. -/
theorem C10_getActivities_order_and_fields_witness :
    ∃ r, (activityService.getActivities sampleStore 1).1 = Except.ok r ∧
      r.length = sampleStore.activities.length ∧
      ∀ i (hi : i < sampleStore.activities.length) (hr : i < r.length),
        (r.get ⟨i, hr⟩).activity = sampleStore.activities.get ⟨i, hi⟩ :=
  C10_getActivities_order_and_fields sampleStore 1 (by rfl)

/-- Refinement reference for C2, following the spec's words: the hotel
guard rejects when "ticket absent, OR ticket.status == RESERVED, OR
ticket.ticketType.isRemote, OR NOT ticket.ticketType.includesHotel". -/
def specHotelTicketRejected : Option Ticket → Bool
  | none => true
  | some t => t.status == TicketStatus.RESERVED || t.TicketType.isRemote
      || !t.TicketType.includesHotel

/-- C2. Given an enrollment, the hotel guard (and hence getHotels,
getHotelsWithRooms, getAllHotelsWithRooms) fails with the Forbidden
"cannot list hotels" error exactly when the spec's rejection condition
holds of the enrollment's ticket; otherwise the guard succeeds. -/
theorem C2_hotel_guard_characterization (s : Store) (uid : Nat) (e : Enrollment)
    (he : enrollmentRepository.findWithAddressByUserId s uid = some e) :
    (((hotelService.listHotels s uid).1 = Except.error ServiceError.cannotListHotels) ↔
      specHotelTicketRejected (ticketRepository.findTicketByEnrollmentId s e.id) = true) ∧
    (specHotelTicketRejected (ticketRepository.findTicketByEnrollmentId s e.id) = false →
      (hotelService.listHotels s uid).1 = Except.ok ()) ∧
    (((hotelService.getHotels s uid).1 = Except.error ServiceError.cannotListHotels) ↔
      specHotelTicketRejected (ticketRepository.findTicketByEnrollmentId s e.id) = true) ∧
    (∀ hid, ((hotelService.getHotelsWithRooms s uid hid).1 =
        Except.error ServiceError.cannotListHotels) ↔
      specHotelTicketRejected (ticketRepository.findTicketByEnrollmentId s e.id) = true) ∧
    (((hotelService.getAllHotelsWithRooms s uid).1 = Except.error ServiceError.cannotListHotels) ↔
      specHotelTicketRejected (ticketRepository.findTicketByEnrollmentId s e.id) = true) := by
  have hlh : hotelService.listHotels s uid =
      ((if specHotelTicketRejected (ticketRepository.findTicketByEnrollmentId s e.id) then
          Except.error ServiceError.cannotListHotels else Except.ok ()),
        [StoreAccess.findEnrollment uid, StoreAccess.findTicket e.id]) := by
    unfold hotelService.listHotels
    rw [he]
    cases ht : ticketRepository.findTicketByEnrollmentId s e.id with
    | none => simp [specHotelTicketRejected, ht]
    | some t =>
      cases hc : (t.status == TicketStatus.RESERVED || t.TicketType.isRemote
          || !t.TicketType.includesHotel) with
      | false =>
        simp only [Bool.or_eq_false_iff, beq_eq_false_iff_ne, ne_eq,
          Bool.not_eq_false] at hc
        simp [specHotelTicketRejected, ht, hc]
      | true =>
        simp only [specHotelTicketRejected, ht, hc]
        simp only [Bool.or_eq_true, beq_iff_eq, Bool.not_eq_true] at hc
        simp [ht, hc]
  cases hb : specHotelTicketRejected (ticketRepository.findTicketByEnrollmentId s e.id) with
  | false =>
    rw [hb] at hlh
    simp only [if_false, Bool.false_eq_true] at hlh
    refine ⟨?_, ?_, ?_, ?_, ?_⟩
    · simp [hlh]
    · intro _; simp [hlh]
    · simp [hotelService.getHotels, hlh]
    · intro hid
      cases hf : hotelRepository.findRoomsByHotelId s hid with
      | none => simp [hotelService.getHotelsWithRooms, hlh, hf]
      | some hotel => simp [hotelService.getHotelsWithRooms, hlh, hf]
    · simp [hotelService.getAllHotelsWithRooms, hlh]
  | true =>
    rw [hb] at hlh
    simp only [if_true] at hlh
    refine ⟨?_, ?_, ?_, ?_, ?_⟩
    · simp [hlh]
    · intro hcontra; simp at hcontra
    · simp [hotelService.getHotels, hlh]
    · intro hid; simp [hotelService.getHotelsWithRooms, hlh]
    · simp [hotelService.getAllHotelsWithRooms, hlh]

/-- C2 witness: instantiation at `sampleStore`, user 1, whose enrollment is
record `id 1, userId 1`. -/
theorem C2_hotel_guard_characterization_witness :
    (((hotelService.listHotels sampleStore 1).1 = Except.error ServiceError.cannotListHotels) ↔
      specHotelTicketRejected
        (ticketRepository.findTicketByEnrollmentId sampleStore
          (Enrollment.mk 1 1).id) = true) ∧
    (specHotelTicketRejected
        (ticketRepository.findTicketByEnrollmentId sampleStore (Enrollment.mk 1 1).id) = false →
      (hotelService.listHotels sampleStore 1).1 = Except.ok ()) ∧
    (((hotelService.getHotels sampleStore 1).1 = Except.error ServiceError.cannotListHotels) ↔
      specHotelTicketRejected
        (ticketRepository.findTicketByEnrollmentId sampleStore (Enrollment.mk 1 1).id) = true) ∧
    (∀ hid, ((hotelService.getHotelsWithRooms sampleStore 1 hid).1 =
        Except.error ServiceError.cannotListHotels) ↔
      specHotelTicketRejected
        (ticketRepository.findTicketByEnrollmentId sampleStore (Enrollment.mk 1 1).id) = true) ∧
    (((hotelService.getAllHotelsWithRooms sampleStore 1).1 =
        Except.error ServiceError.cannotListHotels) ↔
      specHotelTicketRejected
        (ticketRepository.findTicketByEnrollmentId sampleStore (Enrollment.mk 1 1).id) = true) :=
  C2_hotel_guard_characterization sampleStore 1 (Enrollment.mk 1 1) (by rfl)

/-- C3. A paid, non-remote ticket whose type has `includesHotel = false`,
together with a booking: the activity guard passes (it never consults
`includesHotel`) so `getActivities` and `createUserActivity` proceed past
the guard, while the hotel guard rejects the same user. -/
theorem C3_guard_asymmetry (s : Store) (uid : Nat) (e : Enrollment) (t : Ticket) (b : Booking)
    (he : enrollmentRepository.findWithAddressByUserId s uid = some e)
    (ht : ticketRepository.findTicketByEnrollmentId s e.id = some t)
    (hpaid : t.status = TicketStatus.PAID)
    (hremote : t.TicketType.isRemote = false)
    (hhotel : t.TicketType.includesHotel = false)
    (hb : bookingRepository.findByUserId s uid = some b) :
    (activityService.listActivities s uid).1 = Except.ok () ∧
    (hotelService.listHotels s uid).1 = Except.error ServiceError.cannotListHotels ∧
    (∃ r, (activityService.getActivities s uid).1 = Except.ok r) ∧
    (∀ aid, (activityService.createUserActivity s uid aid).1 ≠ Except.error ServiceError.notFound ∧
      (activityService.createUserActivity s uid aid).1 ≠
        Except.error ServiceError.cannotListActivities) := by
  have hla : activityService.listActivities s uid =
      (Except.ok (), [StoreAccess.findEnrollment uid, StoreAccess.findTicket e.id,
        StoreAccess.findBooking uid]) := by
    unfold activityService.listActivities
    simp [he, ht, hb, hpaid, hremote]
  refine ⟨by simp [hla], ?_, ?_, ?_⟩
  · unfold hotelService.listHotels
    simp [he, ht, hhotel]
  · exact ⟨(activityRepository.findAllActivities s).map (fun activity =>
      { activity := activity,
        userSubscribed := activityService.subscribedLoop activity
          (activityRepository.findUserActivities s uid) }),
      by simp [activityService.getActivities, hla]⟩
  · intro aid
    have hcu : (activityService.createUserActivity s uid aid).1 =
        (activityRepository.registerInActivity s uid aid).1 := by
      simp [activityService.createUserActivity, hla]
    rw [hcu]
    unfold activityRepository.registerInActivity
    split
    · simp
    · split
      · simp
      · simp

/-- A store identical to `sampleStore` except the ticket's type has
`includesHotel = false`. -/
def noHotelTicketStore : Store :=
  { sampleStore with
    tickets := [{ id := 1, enrollmentId := 1, status := TicketStatus.PAID,
                  TicketType := { id := 1, isRemote := false, includesHotel := false,
                                  price := 600 } }] }

/-- C3 witness: the asymmetry realized at `noHotelTicketStore`, user 1. -/
theorem C3_guard_asymmetry_witness :
    (activityService.listActivities noHotelTicketStore 1).1 = Except.ok () ∧
    (hotelService.listHotels noHotelTicketStore 1).1 =
      Except.error ServiceError.cannotListHotels ∧
    (∃ r, (activityService.getActivities noHotelTicketStore 1).1 = Except.ok r) ∧
    (∀ aid, (activityService.createUserActivity noHotelTicketStore 1 aid).1 ≠
        Except.error ServiceError.notFound ∧
      (activityService.createUserActivity noHotelTicketStore 1 aid).1 ≠
        Except.error ServiceError.cannotListActivities) :=
  C3_guard_asymmetry noHotelTicketStore 1 (Enrollment.mk 1 1)
    { id := 1, enrollmentId := 1, status := TicketStatus.PAID,
      TicketType := { id := 1, isRemote := false, includesHotel := false, price := 600 } }
    (Booking.mk 1 1 1) (by rfl) (by rfl) (by rfl) (by rfl) (by rfl) (by rfl)

/-- C4. Without an enrollment every guarded operation fails NotFound, leaves
the store unchanged, and performs only the single enrollment lookup. -/
theorem C4_no_enrollment_notFound (s : Store) (uid : Nat)
    (he : enrollmentRepository.findWithAddressByUserId s uid = none) :
    activityService.getActivities s uid =
      (Except.error ServiceError.notFound, s, [StoreAccess.findEnrollment uid]) ∧
    (∀ aid, activityService.createUserActivity s uid aid =
      (Except.error ServiceError.notFound, s, [StoreAccess.findEnrollment uid])) ∧
    hotelService.getHotels s uid =
      (Except.error ServiceError.notFound, s, [StoreAccess.findEnrollment uid]) ∧
    (∀ hid, hotelService.getHotelsWithRooms s uid hid =
      (Except.error ServiceError.notFound, s, [StoreAccess.findEnrollment uid])) ∧
    hotelService.getAllHotelsWithRooms s uid =
      (Except.error ServiceError.notFound, s, [StoreAccess.findEnrollment uid]) := by
  have hla : activityService.listActivities s uid =
      (Except.error ServiceError.notFound, [StoreAccess.findEnrollment uid]) := by
    unfold activityService.listActivities
    simp [he]
  have hlh : hotelService.listHotels s uid =
      (Except.error ServiceError.notFound, [StoreAccess.findEnrollment uid]) := by
    unfold hotelService.listHotels
    simp [he]
  refine ⟨?_, ?_, ?_, ?_, ?_⟩ <;>
    simp [activityService.getActivities, activityService.createUserActivity,
      hotelService.getHotels, hotelService.getHotelsWithRooms,
      hotelService.getAllHotelsWithRooms, hla, hlh]

/-- C4 witness: user 2 has no enrollment in `sampleStore`. -/
theorem C4_no_enrollment_notFound_witness :
    activityService.getActivities sampleStore 2 =
      (Except.error ServiceError.notFound, sampleStore, [StoreAccess.findEnrollment 2]) ∧
    (∀ aid, activityService.createUserActivity sampleStore 2 aid =
      (Except.error ServiceError.notFound, sampleStore, [StoreAccess.findEnrollment 2])) ∧
    hotelService.getHotels sampleStore 2 =
      (Except.error ServiceError.notFound, sampleStore, [StoreAccess.findEnrollment 2]) ∧
    (∀ hid, hotelService.getHotelsWithRooms sampleStore 2 hid =
      (Except.error ServiceError.notFound, sampleStore, [StoreAccess.findEnrollment 2])) ∧
    hotelService.getAllHotelsWithRooms sampleStore 2 =
      (Except.error ServiceError.notFound, sampleStore, [StoreAccess.findEnrollment 2]) :=
  C4_no_enrollment_notFound sampleStore 2 (by rfl)

/-- C5. A user whose ticket passes the activity checks but who has no
booking: `getActivities` and `createUserActivity` fail NotFound, while the
hotel guard is entirely independent of the bookings table. -/
theorem C5_booking_check_asymmetry (s : Store) (uid : Nat) (e : Enrollment) (t : Ticket)
    (he : enrollmentRepository.findWithAddressByUserId s uid = some e)
    (ht : ticketRepository.findTicketByEnrollmentId s e.id = some t)
    (hres : t.status ≠ TicketStatus.RESERVED)
    (hremote : t.TicketType.isRemote = false)
    (hb : bookingRepository.findByUserId s uid = none) :
    (activityService.getActivities s uid).1 = Except.error ServiceError.notFound ∧
    (∀ aid, (activityService.createUserActivity s uid aid).1 =
      Except.error ServiceError.notFound) ∧
    (∀ bs, hotelService.listHotels { s with bookings := bs } uid =
      hotelService.listHotels s uid) := by
  have hla : activityService.listActivities s uid =
      (Except.error ServiceError.notFound, [StoreAccess.findEnrollment uid,
        StoreAccess.findTicket e.id, StoreAccess.findBooking uid]) := by
    unfold activityService.listActivities
    simp [he, ht, hb, hremote, hres]
  refine ⟨?_, ?_, ?_⟩
  · simp [activityService.getActivities, hla]
  · intro aid
    simp [activityService.createUserActivity, hla]
  · intro bs
    rfl

/-- A store identical to `sampleStore` but with no bookings. -/
def noBookingStore : Store := { sampleStore with bookings := [] }

/-- C5 witness: user 1 of `noBookingStore` has a passing ticket but no
booking. -/
theorem C5_booking_check_asymmetry_witness :
    (activityService.getActivities noBookingStore 1).1 = Except.error ServiceError.notFound ∧
    (∀ aid, (activityService.createUserActivity noBookingStore 1 aid).1 =
      Except.error ServiceError.notFound) ∧
    (∀ bs, hotelService.listHotels { noBookingStore with bookings := bs } 1 =
      hotelService.listHotels noBookingStore 1) :=
  C5_booking_check_asymmetry noBookingStore 1 (Enrollment.mk 1 1)
    { id := 1, enrollmentId := 1, status := TicketStatus.PAID,
      TicketType := { id := 1, isRemote := false, includesHotel := true, price := 600 } }
    (by rfl) (by rfl) (by decide) (by rfl) (by rfl)

/-- C6 counterexample: in `sampleStore` user 1 passes the activity guard and
activity 10 exists, yet the first `createUserActivity` call already fails
with Conflict because user 1 holds a prior registration — the claim's
"first call succeeds" is false for an eligible user with an existing
registration. -/
theorem C6_counterexample :
    (activityService.listActivities sampleStore 1).1 = Except.ok () ∧
    sampleStore.activities.any (fun a => a.id == 10) = true ∧
    (activityService.createUserActivity sampleStore 1 10).1 =
      Except.error ServiceError.conflict :=
  ⟨by rfl, by rfl, by rfl⟩

/-- The registration row inserted by `registerInActivity` on success, with
the server-assigned id and timestamps. -/
def insertedReg (s : Store) (uid aid : Nat) : UserActivity :=
  { id := s.nextId, userId := uid, activityId := aid,
    createdAt := s.now, updatedAt := s.now }

/-- The store after a successful `registerInActivity`. -/
def insertedStore (s : Store) (uid aid : Nat) : Store :=
  { s with
    userActivities := s.userActivities ++ [insertedReg s uid aid],
    nextId := s.nextId + 1 }

/-- C6 (amended). For an eligible user with no existing registration and
activity ids that exist in the catalog: the first `createUserActivity`
succeeds with matching userId/activityId, and a second call for the same
user — with any existing activityId, even a different one — fails with
Conflict, since the uniqueness constraint is scoped to userId alone. -/
theorem C6_createUserActivity_twice (s : Store) (uid aid aid2 : Nat)
    (hg : (activityService.listActivities s uid).1 = Except.ok ())
    (hfresh : ∀ ua ∈ s.userActivities, ua.userId ≠ uid)
    (ha : ∃ a ∈ s.activities, a.id = aid)
    (ha2 : ∃ a ∈ s.activities, a.id = aid2) :
    ∃ reg, (activityService.createUserActivity s uid aid).1 = Except.ok reg ∧
      reg.userId = uid ∧ reg.activityId = aid ∧
      (activityService.createUserActivity
        (activityService.createUserActivity s uid aid).2.1 uid aid2).1 =
        Except.error ServiceError.conflict := by
  rcases hp : activityService.listActivities s uid with ⟨res, tr⟩
  rw [hp] at hg
  simp only at hg
  subst hg
  have hall : s.activities.all (fun a => !(a.id == aid)) = false := by
    rcases ha with ⟨a, hmem, haid⟩
    rw [Bool.eq_false_iff]
    intro hcontra
    rw [List.all_eq_true] at hcontra
    have := hcontra a hmem
    simp [haid] at this
  have hnone : s.userActivities.any (fun ua => ua.userId == uid) = false := by
    rw [Bool.eq_false_iff]
    intro hcontra
    rw [List.any_eq_true] at hcontra
    rcases hcontra with ⟨ua, hm, hequ⟩
    exact hfresh ua hm (by simpa using hequ)
  have hreg : activityRepository.registerInActivity s uid aid =
      (Except.ok (insertedReg s uid aid), insertedStore s uid aid) := by
    unfold activityRepository.registerInActivity insertedStore insertedReg
    rw [hall, hnone]
    simp
  have hcall1 : activityService.createUserActivity s uid aid =
      (Except.ok (insertedReg s uid aid), insertedStore s uid aid,
        tr ++ [StoreAccess.insertRegistration uid aid]) := by
    unfold activityService.createUserActivity
    rw [hp, hreg]
  refine ⟨insertedReg s uid aid, by rw [hcall1], rfl, rfl, ?_⟩
  rw [hcall1]
  simp only
  have hp2 : activityService.listActivities (insertedStore s uid aid) uid =
      (Except.ok (), tr) := hp
  have hall2 : (insertedStore s uid aid).activities.all
      (fun a => !(a.id == aid2)) = false := by
    rcases ha2 with ⟨a, hmem, haid⟩
    rw [Bool.eq_false_iff]
    intro hcontra
    rw [List.all_eq_true] at hcontra
    have := hcontra a hmem
    simp [haid] at this
  have hany2 : (insertedStore s uid aid).userActivities.any
      (fun ua => ua.userId == uid) = true := by
    rw [List.any_eq_true]
    refine ⟨insertedReg s uid aid, ?_, by simp [insertedReg]⟩
    simp [insertedStore]
  unfold activityService.createUserActivity
  rw [hp2]
  unfold activityRepository.registerInActivity
  rw [hall2, hany2]
  simp

/-- A store identical to `sampleStore` but with no activity registrations. -/
def freshStore : Store := { sampleStore with userActivities := [] }

/-- C6 witness: in `freshStore` user 1 registers for activity 10, then a
second registration for activity 11 conflicts. -/
theorem C6_createUserActivity_twice_witness :
    ∃ reg, (activityService.createUserActivity freshStore 1 10).1 = Except.ok reg ∧
      reg.userId = 1 ∧ reg.activityId = 10 ∧
      (activityService.createUserActivity
        (activityService.createUserActivity freshStore 1 10).2.1 1 11).1 =
        Except.error ServiceError.conflict :=
  C6_createUserActivity_twice freshStore 1 10 11 (by rfl) (by decide) (by decide) (by decide)

/-- C7. For an eligible user and an activityId matching no catalog activity,
`createUserActivity` fails with BadRequest and leaves the store unchanged. -/
theorem C7_create_nonexistent_activity (s : Store) (uid aid : Nat)
    (hg : (activityService.listActivities s uid).1 = Except.ok ())
    (ha : ∀ a ∈ s.activities, a.id ≠ aid) :
    (activityService.createUserActivity s uid aid).1 =
      Except.error ServiceError.badRequest ∧
    (activityService.createUserActivity s uid aid).2.1 = s := by
  rcases hp : activityService.listActivities s uid with ⟨res, tr⟩
  rw [hp] at hg
  simp only at hg
  subst hg
  have hall : s.activities.all (fun a => !(a.id == aid)) = true := by
    rw [List.all_eq_true]
    intro a hm
    simpa using ha a hm
  have hreg : activityRepository.registerInActivity s uid aid =
      (Except.error ServiceError.badRequest, s) := by
    unfold activityRepository.registerInActivity
    rw [hall]
    simp
  constructor <;> simp [activityService.createUserActivity, hp, hreg]

/-- C7 witness: activity 999 does not exist in `sampleStore`. -/
theorem C7_create_nonexistent_activity_witness :
    (activityService.createUserActivity sampleStore 1 999).1 =
      Except.error ServiceError.badRequest ∧
    (activityService.createUserActivity sampleStore 1 999).2.1 = sampleStore :=
  C7_create_nonexistent_activity sampleStore 1 999 (by rfl) (by decide)

/-- C8. With the hotel guard passing, `getHotelsWithRooms` fails NotFound
when no hotel has the requested id, and returns the matching hotel with its
rooms when one does. -/
theorem C8_getHotelsWithRooms_lookup (s : Store) (uid : Nat)
    (hg : (hotelService.listHotels s uid).1 = Except.ok ()) :
    (∀ hid, (∀ h ∈ s.hotels, h.id ≠ hid) →
      (hotelService.getHotelsWithRooms s uid hid).1 =
        Except.error ServiceError.notFound) ∧
    (∀ hid h, s.hotels.find? (fun x => x.id == hid) = some h →
      (hotelService.getHotelsWithRooms s uid hid).1 =
        Except.ok { id := h.id, name := h.name,
                    Rooms := s.rooms.filter (fun r => r.hotelId == h.id) }) := by
  rcases hp : hotelService.listHotels s uid with ⟨res, tr⟩
  rw [hp] at hg
  simp only at hg
  subst hg
  constructor
  · intro hid hnone
    have hfind : s.hotels.find? (fun h => h.id == hid) = none := by
      rw [List.find?_eq_none]
      intro h hm
      simpa using hnone h hm
    simp [hotelService.getHotelsWithRooms, hp, hotelRepository.findRoomsByHotelId, hfind]
  · intro hid h hfind
    simp [hotelService.getHotelsWithRooms, hp, hotelRepository.findRoomsByHotelId, hfind]

/-- C8 witness: instantiation at `sampleStore`, user 1 (hotel 1 exists,
hotel 999 does not). -/
theorem C8_getHotelsWithRooms_lookup_witness :
    (∀ hid, (∀ h ∈ sampleStore.hotels, h.id ≠ hid) →
      (hotelService.getHotelsWithRooms sampleStore 1 hid).1 =
        Except.error ServiceError.notFound) ∧
    (∀ hid h, sampleStore.hotels.find? (fun x => x.id == hid) = some h →
      (hotelService.getHotelsWithRooms sampleStore 1 hid).1 =
        Except.ok { id := h.id, name := h.name,
                    Rooms := sampleStore.rooms.filter (fun r => r.hotelId == h.id) }) :=
  C8_getHotelsWithRooms_lookup sampleStore 1 (by rfl)

/-- C9. The three hotel catalog operations never change the store, and
repeating any of them against the resulting store returns the same value. -/
theorem C9_hotel_catalog_no_writes (s : Store) (uid : Nat) (hid : Nat) :
    (hotelService.getHotels s uid).2.1 = s ∧
    (hotelService.getHotelsWithRooms s uid hid).2.1 = s ∧
    (hotelService.getAllHotelsWithRooms s uid).2.1 = s ∧
    hotelService.getHotels ((hotelService.getHotels s uid).2.1) uid =
      hotelService.getHotels s uid ∧
    hotelService.getHotelsWithRooms
      ((hotelService.getHotelsWithRooms s uid hid).2.1) uid hid =
      hotelService.getHotelsWithRooms s uid hid ∧
    hotelService.getAllHotelsWithRooms
      ((hotelService.getAllHotelsWithRooms s uid).2.1) uid =
      hotelService.getAllHotelsWithRooms s uid := by
  have h1 : (hotelService.getHotels s uid).2.1 = s := by
    rcases hp : hotelService.listHotels s uid with ⟨res, tr⟩
    cases res <;> simp [hotelService.getHotels, hp]
  have h2 : (hotelService.getHotelsWithRooms s uid hid).2.1 = s := by
    rcases hp : hotelService.listHotels s uid with ⟨res, tr⟩
    cases res with
    | error e => simp [hotelService.getHotelsWithRooms, hp]
    | ok u =>
      cases hf : hotelRepository.findRoomsByHotelId s hid <;>
        simp [hotelService.getHotelsWithRooms, hp, hf]
  have h3 : (hotelService.getAllHotelsWithRooms s uid).2.1 = s := by
    rcases hp : hotelService.listHotels s uid with ⟨res, tr⟩
    cases res <;> simp [hotelService.getAllHotelsWithRooms, hp]
  exact ⟨h1, h2, h3, by rw [h1], by rw [h2], by rw [h3]⟩
